import Mathlib

set_option maxRecDepth 16384

/-!
Verification of the newwify core: the mood classifier
(generateMoodFromMusic and its genre keyword table) and the resilient
multi-provider biography generator (generateBiography and
generateAllBiographies). The definitions below are a shallow embedding
of the TypeScript source; machine numbers are modelled by Nat, Int and
Rat, fallible code by Except, and the absence of a JS object property by
Option.
-/

/-- A top track as the mood classifier consumes it. The source reads only
the popularity field (possibly absent, and 0 is falsy for the
default-to-50 expression), plus name and artist for context. -/
structure Track where
  name : String
  artist : String
  popularity : Option Nat
deriving DecidableEq

/-- Substring test: the JS expression lowerGenre.includes(keyword). -/
def strContains (s pat : String) : Bool :=
  decide (pat.data <:+: s.data)

/-- The JS expression genre.toLowerCase(), modelled characterwise; it
agrees with the source on the ASCII genre strings the service supplies. -/
def lowercase (s : String) : String :=
  String.mk (s.data.map Char.toLower)

/-- The fixed table mapping each of the nine moods to its keyword list, in
the insertion order of the source object literal. -/
def genreCheckList : List (String × List String) :=
  [("energetic", ["dance", "edm", "electronic", "house", "techno", "pop", "party", "club"]),
   ("happy", ["pop", "happy", "feel-good", "summer", "tropical", "disney"]),
   ("intense", ["metal", "hardcore", "punk", "rock", "alternative", "grunge"]),
   ("relaxed", ["ambient", "chill", "study", "piano", "sleep", "meditation", "acoustic"]),
   ("melancholic", ["sad", "rain", "emotional", "soul", "blues", "indie"]),
   ("thoughtful", ["folk", "singer-songwriter", "acoustic", "indie", "alternative"]),
   ("romantic", ["love", "romance", "r&b", "soul", "wedding"]),
   ("nostalgic", ["80s", "90s", "oldies", "classic", "retro", "vintage"]),
   ("adventurous", ["soundtrack", "epic", "trailer", "movie", "adventure", "game"])]

/-- Number of genres matching a mood: each genre counts at most once per
mood (the source breaks out of the keyword loop on the first match). -/
def moodMatchCount (genres : List String) (keywords : List String) : Nat :=
  genres.countP (fun genre => keywords.any (fun keyword => strContains (lowercase genre) keyword))

/-- The moodCounts record after the genre counting loop, as an ordered
association list over the nine moods. -/
def genreMoodCounts (genres : List String) : List (String × Nat) :=
  genreCheckList.map (fun e => (e.1, moodMatchCount genres e.2))

/-- The JS expression track.popularity || 50: undefined and 0 are both
falsy, so both default to 50. -/
def trackPopularity (t : Track) : Nat :=
  match t.popularity with
  | none => 50
  | some p => if p = 0 then 50 else p

/-- Mean popularity of the tracks, as an exact rational. -/
def averagePopularity (tracks : List Track) : ℚ :=
  ((tracks.map trackPopularity).sum : ℚ) / (tracks.length : ℚ)

/-- The popularity bias block: above 75 average, energetic gains 2 and
happy gains 1; below 50 average, thoughtful and melancholic gain 1. -/
def applyPopularityBias (counts : List (String × Nat)) (avg : ℚ) : List (String × Nat) :=
  if avg > 75 then
    counts.map (fun e =>
      if e.1 = "energetic" then (e.1, e.2 + 2)
      else if e.1 = "happy" then (e.1, e.2 + 1)
      else e)
  else if avg < 50 then
    counts.map (fun e =>
      if e.1 = "thoughtful" then (e.1, e.2 + 1)
      else if e.1 = "melancholic" then (e.1, e.2 + 1)
      else e)
  else counts

/-- The biased mood counts the selection loop runs over. -/
def moodCountsFor (tracks : List Track) (genres : List String) : List (String × Nat) :=
  applyPopularityBias (genreMoodCounts genres) (averagePopularity tracks)

/-- The four mutable variables of the selection loop. The counters start
at -1, hence Int. -/
structure SelState where
  primaryMood : String
  secondaryMood : String
  highestCount : Int
  secondHighestCount : Int
deriving DecidableEq

/-- One iteration of the Object.entries(moodCounts).forEach loop. -/
def selStep (s : SelState) (e : String × Nat) : SelState :=
  if (e.2 : Int) > s.highestCount then
    { primaryMood := e.1, secondaryMood := s.primaryMood,
      highestCount := (e.2 : Int), secondHighestCount := s.highestCount }
  else if (e.2 : Int) > s.secondHighestCount then
    { s with secondaryMood := e.1, secondHighestCount := (e.2 : Int) }
  else s

/-- Initial values of the loop variables in the source. -/
def selInit : SelState :=
  { primaryMood := "nostalgic", secondaryMood := "thoughtful",
    highestCount := -1, secondHighestCount := -1 }

/-- The whole selection loop over the mood count entries. -/
def selectMoods (counts : List (String × Nat)) : SelState :=
  counts.foldl selStep selInit

/-- The primary mood after the zero-signal override block. -/
def choosePrimary (s : SelState) (avg : ℚ) : String :=
  if s.highestCount = 0 then
    if avg > 70 then "energetic" else if avg > 50 then "nostalgic" else "thoughtful"
  else s.primaryMood

/-- The secondary mood after the zero-signal override block. -/
def chooseSecondary (s : SelState) (avg : ℚ) : String :=
  if s.highestCount = 0 then
    if avg > 70 then "happy" else if avg > 50 then "adventurous" else "melancholic"
  else s.secondaryMood

/-- The JS expression mood.charAt(0).toUpperCase() + mood.slice(1). -/
def capitalize (s : String) : String :=
  match s.data with
  | [] => ""
  | c :: cs => String.mk (c.toUpper :: cs)

/-- Result record of the classifier. The recommendation field is an
Option because the default record in the source has no recommendation
property while the ordinary return does. -/
structure MoodResult where
  primary : String
  secondary : String
  description : String
  recommendation : Option String
deriving DecidableEq

/-- The default mood object of the source: three properties only. -/
def defaultMood : MoodResult :=
  { primary := "Nostalgic", secondary := "Thoughtful",
    description := "You find comfort in songs that remind you of meaningful moments.",
    recommendation := none }

/-- The fixed per-mood description and recommendation table. -/
def moodDescriptions : List (String × String × String) :=
  [("energetic",
    "Our analysis suggests you enjoy high-energy tracks with dynamic beats.",
    "Try listening to 'Blinding Lights' by The Weeknd or 'Don't Stop Me Now' by Queen."),
   ("happy",
    "Your musical choices suggest a preference for uplifting and positive sounds.",
    "You might enjoy 'Happy' by Pharrell Williams or 'Walking on Sunshine' by Katrina & The Waves."),
   ("intense",
    "Your taste leans toward music with emotional depth and powerful soundscapes.",
    "Consider 'Welcome to the Black Parade' by My Chemical Romance or 'Knights of Cydonia' by Muse."),
   ("relaxed",
    "Your listening patterns indicate appreciation for calming and peaceful sounds.",
    "You might enjoy 'Weightless' by Marconi Union or 'Comptine d'un Autre Été' by Yann Tiersen."),
   ("melancholic",
    "Your music choices reveal an appreciation for the beauty in melancholy and introspection.",
    "Try 'Vienna' by Billy Joel or 'Liability' by Lorde for more emotional depth."),
   ("thoughtful",
    "Our analysis shows you enjoy music that stimulates reflection and deep thinking.",
    "Consider 'Hallelujah' by Leonard Cohen or 'Imagine' by John Lennon to match your thoughtful style."),
   ("romantic",
    "Your playlist suggests a taste for music that evokes emotional connection.",
    "You might enjoy 'At Last' by Etta James or 'Can't Help Falling in Love' by Elvis Presley."),
   ("nostalgic",
    "Your preferences point toward music that creates a sense of reminiscence.",
    "Try 'Yesterday' by The Beatles or 'The Sound of Silence' by Simon & Garfunkel."),
   ("adventurous",
    "Your musical journey indicates an openness to diverse and exploratory sounds.",
    "Consider 'Bohemian Rhapsody' by Queen or 'Stairway to Heaven' by Led Zeppelin.")]

/-- The lookup moodDescriptions[primaryMood], possibly missing. -/
def lookupMoodText (mood : String) : Option (String × String) :=
  (moodDescriptions.find? (fun e => e.1 = mood)).map (fun e => e.2)

/-- The mood classifier generateMoodFromMusic of the source. -/
def generateMoodFromMusic (tracks : List Track) (genres : List String) : MoodResult :=
  if tracks.length = 0 then defaultMood
  else
    let avg := averagePopularity tracks
    let sel := selectMoods (moodCountsFor tracks genres)
    let primaryMood := choosePrimary sel avg
    let secondaryMood := chooseSecondary sel avg
    { primary := capitalize primaryMood,
      secondary := capitalize secondaryMood,
      description :=
        match lookupMoodText primaryMood with
        | some d => d.1
        | none => defaultMood.description,
      recommendation := some
        (match lookupMoodText primaryMood with
         | some d => d.2
         | none => "Try exploring more music to get personalized recommendations.") }

/-- The three biography languages of the source. -/
inductive Lang
  | en
  | tr
  | ku
deriving DecidableEq

/-- A track as the biography generator consumes it. -/
structure TrackInfo where
  name : String
  artist : String
deriving DecidableEq

/-- The options record of generateBiography. -/
structure BiographyOptions where
  tracks : List TrackInfo
  language : Lang
  artistGenres : List String
  playlists : List String
  topArtists : List String
  mostPlayedSong : Option String
  userDisplayName : Option String

/-- The numbered track list text embedded in the prompt. -/
def tracksTextOf (tracks : List TrackInfo) : String :=
  String.intercalate "\n" (tracks.enum.map (fun p =>
    toString (p.1 + 1) ++ ". \"" ++ p.2.name ++ "\" by " ++ p.2.artist))

/-- The optional context lines, each included only when its datum is
present and non-empty (the JS truthiness tests). -/
def userContextLines (o : BiographyOptions) : List String :=
  (if o.artistGenres.length > 0 then
    ["Favorite music genres: " ++ String.intercalate ", " o.artistGenres] else [])
  ++ (if o.topArtists.length > 0 then
    ["Top artists: " ++ String.intercalate ", " o.topArtists] else [])
  ++ (match o.mostPlayedSong with
      | some s => if s = "" then [] else ["Most played song: " ++ s]
      | none => [])
  ++ (if o.playlists.length > 0 then
    ["Playlist themes: " ++ String.intercalate ", " o.playlists] else [])

/-- The userContextText block appended after the track list. -/
def userContextTextOf (o : BiographyOptions) : String :=
  if (userContextLines o).length > 0 then
    "\n\nAdditional context about the listener:\n"
      ++ String.intercalate "\n" (userContextLines o)
  else ""

def promptEn (tracksText userContextText : String) : String :=
  String.intercalate "\n"
    ["Write in the exact literary style of Nobel Prize-winning Turkish author Orhan Pamuk based on these top songs a person listens to:",
     ""]
  ++ tracksText ++ userContextText
  ++ String.intercalate "\n"
    ["",
     "",
     "Craft a melancholic and introspective music biography (500-600 characters) that explores the intersection of memory, identity, and nostalgia through their music taste.",
     "Your writing should feature the following Orhan Pamuk characteristics:",
     "- Rich, layered descriptions that build a sensory atmosphere",
     "- Melancholic tone with philosophical musings about music and identity",
     "- Nostalgic reflections on the past with a sense of hüzün (Turkish melancholy)",
     "- Long, meandering sentences with multiple clauses interspersed with short, impactful observations",
     "- Subtle references to Istanbul's music culture or East-West tensions when appropriate",
     "- Delicate weaving of personal and collective memory into a unified narrative",
     "",
     "IMPORTANT RESTRICTIONS:",
     "- Never directly mention song titles, artist names, or playlist names in your text",
     "- Never use the person's actual name even if provided",
     "- Never sound like AI - mimic Pamuk's distinctive literary voice precisely while focusing on music and identity",
     "- Include subtle references to their music taste as part of the personal narrative without naming songs/artists",
     "- Set the narrative in the early 1970s music scene - do not reference modern technology or years beyond the 1970s"]

def promptTr (tracksText userContextText : String) : String :=
  String.intercalate "\n"
    ["Nobel ödüllü Türk yazar Orhan Pamuk'un edebi tarzını kullarak, bir kişinin dinlediği şu şarkılara dayanarak yazı yaz:",
     ""]
  ++ tracksText ++ userContextText
  ++ String.intercalate "\n"
    ["",
     "",
     "Bu kişinin müzik zevkinden yola çıkarak bellek, kimlik ve nostalji kesişimini inceleyen melankolik ve içe dönük bir müzik biyografisi yaz (500-600 karakter).",
     "",
     "Yazın şu Orhan Pamuk özelliklerini taşımalı:",
     "- Duyusal bir atmosfer oluşturan zengin, katmanlı betimlemeler",
     "- Müzik ve kimlik üzerine felsefi düşünceler içeren melankolik ton",
     "- Geçmişe dair hüzün dolu nostaljik yansımalar",
     "- Kısa, etkili gözlemlerle kesilen çok yan cümleli, dolambaçlı uzun cümleler",
     "- İstanbul'un müzik kültürüne veya Doğu-Batı gerilimine uygun yerlerde ince göndermeler",
     "- Kişisel ve kolektif belleğin birleşik bir anlatıda ustaca harmanlanması",
     "",
     "ÖNEMLİ KISITLAMALAR:",
     "- Metinde asla şarkı başlıklarını, sanatçı adlarını veya çalma listesi adlarını doğrudan belirtme",
     "- Gerçek kişi adını asla kullanma, sağlansa bile",
     "- Asla yapay zeka gibi konuşma - müzik ve kimliğe odaklanırken Pamuk'un ayırt edici edebi sesini tam olarak taklit et",
     "- Şarkı/sanatçı isimleri vermeden müzik zevklerine dair ince göndermeler yap",
     "- Anlatıyı 1970'lerin başındaki müzik sahnesinde kurgula - modern teknolojiden veya 1970'lerin ötesindeki yıllardan bahsetme"]

def promptKu (tracksText userContextText : String) : String :=
  String.intercalate "\n"
    ["Bi şêwaza edebî ya nivîskarê Tirk ê xelata Nobelê Orhan Pamuk, li ser van stranên ku kesek guhdarî dike binivîse:",
     ""]
  ++ tracksText ++ userContextText
  ++ String.intercalate "\n"
    ["",
     "",
     "Ji xweşbîniya muzîkê ya vî kesî, bîyografiyek muzîkê ya melankolî û fikrî binivîse (500-600 tîp) ku têkiliya navbera bîranîn, nasname û nostaljiyê vedikole.",
     "",
     "Nivîsandina te divê van taybetmendiyên Orhan Pamuk hebe:",
     "- Danasînên dewlemend û çîneçîn ên ku atmosferek hestî ava dikin",
     "- Toneke melankolî bi hizrên felsefî li ser muzîk û nasnameyê",
     "- Refleksiyonên nostaljîk ên li ser dema borî bi hişmendiya xemgîniyê (hüzün)",
     "- Hevokên dirêj ên tevlihev bi gelek klozên lawe ku bi çavdêriyên kin û bandordar ve tên qutbûn",
     "- Referansên nazik bo çanda muzîkê ya Stenbolê an jî tengahiyên Rojhilat-Rojava li cihên guncav",
     "- Tevlihevkirina hosta ya bîranînên kesane û kolektîf di nav vegotinek yekgirtî",
     "",
     "SÎNORÊN GIRÎNG:",
     "- Di nivîsa xwe de qet navên stranan, navên hunermandan, an navên lîsteyên lêdanê rasterast nebêje",
     "- Navê rastîn ê kesî qet bi kar nîne, tevî ku hatibe dayîn jî",
     "- Qet wekî AI nexuyê - dema ku li ser muzîk û nasnameyê hûr dibî, dengê edebî yê cuda yê Pamuk bi tevahî teqlîd bike",
     "- Bêyî ku navên stranan/hunermandan bibêjî, di nav çîroka kesane de behsa xweşbîniya muzîkê ya wan bike",
     "- Vegotinê di dîmena muzîkê ya destpêka salên 1970an de saz bike - qala teknolojiya modern an salên piştî 1970an neke"]

def staticFallbackEn : String :=
  "In the melancholic twilight of the early 1970s, when vinyl records still carried the weight of memories yet to be formed, they wandered between the record shops of Istanbul with a peculiar solemnity. Their fingers, stained with cigarette traces and poetry ink, would trace album spines as if reading braille—each melody a forgotten conversation, each rhythm a street they once knew. The music they collected spoke of both East and West; a fractured identity mirrored in the songs that filled their silent apartment overlooking the Bosphorus."

def staticFallbackTr : String :=
  "1970'lerin melankolik alacakaranlığında, plak kayıtları henüz oluşmamış anıların ağırlığını taşırken, onlar İstanbul'un plakçıları arasında tuhaf bir ciddiyet ile dolaşıyorlardı. Sigara izleri ve şiir mürekkebiyle lekelenmiş parmakları, sanki körler alfabesi okur gibi albüm sırtlarında gezinirdi—her melodi unutulmuş bir sohbet, her ritim bir zamanlar bildikleri bir sokaktı. Topladıkları müzik hem Doğu'dan hem Batı'dan bahsediyordu; Boğaz'a bakan sessiz dairelerini dolduran şarkılarda yansıyan parçalanmış bir kimlik."

def staticFallbackKu : String :=
  "Di nîv-tariya melankola destpêka salên 1970an de, dema ku qeydên vînîlê hîn giraniya bîranînên ku hê nehatibin çêkirin hildigirtin, ew di navbera dikanên qeydan ên Stenbolê de bi cidiyetek seyr diçûn û dihatin. Tiliyên wan, bi şopên cigareyan û hubra helbestê lekekirî, wek ku braille dixwînin, li ser pişta albûman diçûn û dihatin—her melodî axaftinek ji bîrkirî, her rîtm kolanek ku demekê ew nas dikirin. Muzîka ku wan berhev dikir, hem ji Rojhilat û hem jî ji Rojava diaxivî; nasnameyek parçebûyî ku di stranên ku xaniyê wan ê bêdeng ê li ser Boğazîçiyê dagirtî de dihat nîşandan."


/-- The full prompt of generateBiography for the request language. -/
def buildPrompt (o : BiographyOptions) : String :=
  match o.language with
  | Lang.en => promptEn (tracksTextOf o.tracks) (userContextTextOf o)
  | Lang.tr => promptTr (tracksTextOf o.tracks) (userContextTextOf o)
  | Lang.ku => promptKu (tracksTextOf o.tracks) (userContextTextOf o)

/-- What one provider call does with a prompt: produce text, or throw. -/
inductive ProviderOutcome
  | success (text : String)
  | failure

/-- The module-level client singletons and their behaviour for this
request: none models an uninitialized client (missing API key), and a
configured client maps the prompt it is sent to its outcome. -/
structure ProviderEnv where
  gemini : Option (String → ProviderOutcome)
  deepseek : Option (String → ProviderOutcome)

/-- The 600-character cap: text.substring(0, 597) plus an ellipsis
marker when the text is longer than 600 characters. -/
def truncateBiography (text : String) : String :=
  if text.length > 600 then String.mk (text.data.take 597) ++ "..." else text

/-- The configuration-error message thrown when no client exists. -/
def noModelsMessage : String := "No AI models available for biography generation"

/-- The static per-language fallback returned when every configured
provider call failed. -/
def staticFallback (lang : Lang) : String :=
  match lang with
  | Lang.en => staticFallbackEn
  | Lang.tr => staticFallbackTr
  | Lang.ku => staticFallbackKu

/-- The generateBiography function of the source: fail fast when no
client is configured; otherwise try Gemini, then DeepSeek, and collapse
any provider error into the static fallback text. -/
def generateBiography (env : ProviderEnv) (options : BiographyOptions) : Except String String :=
  if env.gemini.isNone && env.deepseek.isNone then
    Except.error noModelsMessage
  else
    let prompt := buildPrompt options
    match env.gemini with
    | some gem =>
      match gem prompt with
      | ProviderOutcome.success text => Except.ok (truncateBiography text)
      | ProviderOutcome.failure =>
        match env.deepseek with
        | some ds =>
          match ds prompt with
          | ProviderOutcome.success text => Except.ok (truncateBiography text)
          | ProviderOutcome.failure => Except.ok (staticFallback options.language)
        | none => Except.ok (staticFallback options.language)
    | none =>
      match env.deepseek with
      | some ds =>
        match ds prompt with
        | ProviderOutcome.success text => Except.ok (truncateBiography text)
        | ProviderOutcome.failure => Except.ok (staticFallback options.language)
      | none => Except.ok (staticFallback options.language)

/-- The three-language result record. -/
structure BiographySet where
  en : String
  tr : String
  ku : String
deriving DecidableEq

/-- The extraData argument of generateAllBiographies, with the defaults
the source substitutes for missing fields already applied. -/
structure ExtraData where
  artistGenres : List String
  playlists : List String
  topArtists : List String
  mostPlayedSong : Option String
  userDisplayName : Option String

/-- The per-language options generateAllBiographies passes down. -/
def optionsFor (tracks : List TrackInfo) (extra : ExtraData) (lang : Lang) : BiographyOptions :=
  { tracks := tracks, language := lang, artistGenres := extra.artistGenres,
    playlists := extra.playlists, topArtists := extra.topArtists,
    mostPlayedSong := extra.mostPlayedSong, userDisplayName := extra.userDisplayName }

/-- The catch-block literal of generateAllBiographies; its three strings
are character for character the single-language fallback texts. -/
def fallbackBiographySet : BiographySet :=
  { en := staticFallbackEn, tr := staticFallbackTr, ku := staticFallbackKu }

/-- The try block of generateAllBiographies: the three sequential
per-language calls, stopping at the first thrown error. -/
def generateAllBiographiesCore (env : ProviderEnv) (tracks : List TrackInfo)
    (extra : ExtraData) : Except String BiographySet := do
  let enBio <- generateBiography env (optionsFor tracks extra Lang.en)
  let trBio <- generateBiography env (optionsFor tracks extra Lang.tr)
  let kuBio <- generateBiography env (optionsFor tracks extra Lang.ku)
  pure { en := enBio, tr := trBio, ku := kuBio }

/-- The generateAllBiographies function: any error from the per-language
calls is absorbed into the full static fallback set. -/
def generateAllBiographies (env : ProviderEnv) (tracks : List TrackInfo)
    (extra : ExtraData) : BiographySet :=
  match generateAllBiographiesCore env tracks extra with
  | Except.ok s => s
  | Except.error _ => fallbackBiographySet

/-- The bias increments exactly as the specification words them: +2 to
energetic and +1 to happy above average 75, +1 to thoughtful and +1 to
melancholic below average 50, and nothing anywhere else. -/
def biasAmount (avg : ℚ) (mood : String) : Nat :=
  if avg > 75 ∧ mood = "energetic" then 2
  else if avg > 75 ∧ mood = "happy" then 1
  else if avg < 50 ∧ (mood = "thoughtful" ∨ mood = "melancholic") then 1
  else 0

/-- Genre counts with no signal at all: every mood at zero. -/
def zeroGenreCounts : List (String × Nat) :=
  [("energetic", 0), ("happy", 0), ("intense", 0), ("relaxed", 0), ("melancholic", 0),
   ("thoughtful", 0), ("romantic", 0), ("nostalgic", 0), ("adventurous", 0)]

/-- The selection result as the specification words it, for entry list l
and final loop state s: some index fst holds the first entry of l
attaining the maximal count (every earlier entry is strictly smaller),
and some other index snd holds the first entry attaining the maximal
count once that primary entry is set aside; ties always go to the entry
appearing earlier in the fixed table order. -/
def SelSpec (l : List (String × Nat)) (s : SelState) : Prop :=
  ∃ i j, i < l.length ∧ j < l.length ∧ j ≠ i ∧
    (l.getD i ("", 0)).1 = s.primaryMood ∧
    ((l.getD i ("", 0)).2 : Int) = s.highestCount ∧
    (l.getD j ("", 0)).1 = s.secondaryMood ∧
    ((l.getD j ("", 0)).2 : Int) = s.secondHighestCount ∧
    (∀ k, k < l.length → (l.getD k ("", 0)).2 ≤ (l.getD i ("", 0)).2) ∧
    (∀ k, k < i → (l.getD k ("", 0)).2 < (l.getD i ("", 0)).2) ∧
    (∀ k, k < l.length → k ≠ i → (l.getD k ("", 0)).2 ≤ (l.getD j ("", 0)).2) ∧
    (∀ k, k < j → k ≠ i → (l.getD k ("", 0)).2 < (l.getD j ("", 0)).2)

/-- Equation for the classifier on a non-empty track list. -/
theorem generateMoodFromMusic_ne (tracks : List Track) (genres : List String)
    (h : tracks.length ≠ 0) :
    generateMoodFromMusic tracks genres =
      { primary := capitalize (choosePrimary (selectMoods (moodCountsFor tracks genres))
          (averagePopularity tracks)),
        secondary := capitalize (chooseSecondary (selectMoods (moodCountsFor tracks genres))
          (averagePopularity tracks)),
        description :=
          match lookupMoodText (choosePrimary (selectMoods (moodCountsFor tracks genres))
              (averagePopularity tracks)) with
          | some d => d.1
          | none => defaultMood.description,
        recommendation := some
          (match lookupMoodText (choosePrimary (selectMoods (moodCountsFor tracks genres))
              (averagePopularity tracks)) with
           | some d => d.2
           | none => "Try exploring more music to get personalized recommendations.") } := by
  unfold generateMoodFromMusic
  rw [if_neg h]

/-- With no client configured, generateBiography throws the fixed
configuration error. -/
theorem generateBiography_noProvider (env : ProviderEnv) (o : BiographyOptions)
    (hg : env.gemini = none) (hd : env.deepseek = none) :
    generateBiography env o = Except.error noModelsMessage := by
  simp [generateBiography, hg, hd]

/-- With at least one client configured, generateBiography returns ok,
and the result is provider text truncated or the static fallback. -/
theorem generateBiography_ok_shape (env : ProviderEnv) (o : BiographyOptions)
    (h : env.gemini.isSome ∨ env.deepseek.isSome) :
    ∃ r, generateBiography env o = Except.ok r ∧
      ((∃ t, r = truncateBiography t) ∨ r = staticFallback o.language) := by
  have hb : (env.gemini.isNone && env.deepseek.isNone) = false := by
    rcases h with h | h <;> simp [Option.isSome_iff_exists] at h <;>
      obtain ⟨x, hx⟩ := h <;> simp [hx]
  rcases hg : env.gemini with _ | gem
  · rcases hd : env.deepseek with _ | ds
    · rw [hg, hd] at hb; simp at hb
    · cases hout : ds (buildPrompt o) with
      | success t =>
        exact ⟨truncateBiography t,
          by simp [generateBiography, hb, hg, hd, hout], Or.inl ⟨t, rfl⟩⟩
      | failure =>
        exact ⟨staticFallback o.language,
          by simp [generateBiography, hb, hg, hd, hout], Or.inr rfl⟩
  · cases hout : gem (buildPrompt o) with
    | success t =>
      exact ⟨truncateBiography t,
        by simp [generateBiography, hb, hg, hout], Or.inl ⟨t, rfl⟩⟩
    | failure =>
      rcases hd : env.deepseek with _ | ds
      · exact ⟨staticFallback o.language,
          by simp [generateBiography, hb, hg, hout, hd], Or.inr rfl⟩
      · cases hout2 : ds (buildPrompt o) with
        | success t =>
          exact ⟨truncateBiography t,
            by simp [generateBiography, hb, hg, hout, hd, hout2], Or.inl ⟨t, rfl⟩⟩
        | failure =>
          exact ⟨staticFallback o.language,
            by simp [generateBiography, hb, hg, hout, hd, hout2], Or.inr rfl⟩

/-- An error from generateBiography forces both clients to be missing,
and fixes the message. -/
theorem generateBiography_error_none (env : ProviderEnv) (o : BiographyOptions) (msg : String)
    (h : generateBiography env o = Except.error msg) :
    env.gemini = none ∧ env.deepseek = none ∧ msg = noModelsMessage := by
  by_cases hg : env.gemini.isSome ∨ env.deepseek.isSome
  · obtain ⟨r, hr, -⟩ := generateBiography_ok_shape env o hg
    rw [h] at hr; cases hr
  · push_neg at hg
    obtain ⟨h1, h2⟩ := hg
    simp only [Option.not_isSome_iff_eq_none] at h1 h2
    rw [generateBiography_noProvider env o h1 h2] at h
    cases h
    exact ⟨h1, h2, rfl⟩

/-- C2 (amended): for every genre list, the classifier on an empty track
list returns the fixed default record exactly and never fails: primary
Nostalgic, secondary Thoughtful, the fixed default description, and no
recommendation property at all (the source default object has only three
fields, so the result is not the four-field MoodResult shape). -/
theorem empty_tracks_default_mood (genres : List String) :
    generateMoodFromMusic [] genres = defaultMood ∧
    defaultMood.primary = "Nostalgic" ∧ defaultMood.secondary = "Thoughtful" ∧
    defaultMood.description =
      "You find comfort in songs that remind you of meaningful moments." ∧
    defaultMood.recommendation = none :=
  ⟨rfl, rfl, rfl, rfl, rfl⟩

/-- C2 counterexample: on empty tracks the returned record has no
recommendation string, refuting the claimed four-field default result. -/
theorem empty_tracks_mood_has_no_recommendation :
    (generateMoodFromMusic [] []).recommendation = none := rfl

/-- C3: for every language and request, when the Gemini call fails and
the DeepSeek client is missing or its call fails too, generateBiography
returns exactly the static fallback string of the request language and
does not throw. -/
theorem generateBiography_double_failure_fallback (env : ProviderEnv)
    (opts : BiographyOptions) (gem : String → ProviderOutcome)
    (hg : env.gemini = some gem)
    (hfail : gem (buildPrompt opts) = ProviderOutcome.failure)
    (hd : env.deepseek = none ∨
      ∃ ds, env.deepseek = some ds ∧ ds (buildPrompt opts) = ProviderOutcome.failure) :
    generateBiography env opts = Except.ok (staticFallback opts.language) := by
  have hb : (env.gemini.isNone && env.deepseek.isNone) = false := by simp [hg]
  rcases hd with hd | ⟨ds, hd, hdfail⟩
  · simp [generateBiography, hb, hg, hfail, hd]
  · simp [generateBiography, hb, hg, hfail, hd, hdfail]

/-- C3 witness at a concrete environment where both providers fail. -/
theorem generateBiography_double_failure_fallback_witness :
    generateBiography
        ⟨some (fun _ => ProviderOutcome.failure), some (fun _ => ProviderOutcome.failure)⟩
        ⟨[], Lang.en, [], [], [], none, none⟩
      = Except.ok (staticFallback Lang.en) :=
  generateBiography_double_failure_fallback _ _ _ rfl rfl (Or.inr ⟨_, rfl, rfl⟩)

/-- C4: if any per-language generateBiography call throws, the batch
function returns the complete fixed three-language fallback set; the
batch itself never propagates an error (its result type is a plain
record of three strings). -/
theorem generateAllBiographies_absorbs_errors (env : ProviderEnv)
    (tracks : List TrackInfo) (extra : ExtraData)
    (h : ∃ lang msg, generateBiography env (optionsFor tracks extra lang) = Except.error msg) :
    generateAllBiographies env tracks extra = fallbackBiographySet := by
  obtain ⟨lang, msg, hl⟩ := h
  obtain ⟨h1, h2, -⟩ := generateBiography_error_none env _ msg hl
  have hen : generateBiography env (optionsFor tracks extra Lang.en)
      = Except.error noModelsMessage := generateBiography_noProvider env _ h1 h2
  simp [generateAllBiographies, generateAllBiographiesCore, hen, Bind.bind, Except.bind]

/-- C4 witness at the concrete unconfigured environment. -/
theorem generateAllBiographies_absorbs_errors_witness :
    generateAllBiographies ⟨none, none⟩ [] ⟨[], [], [], none, none⟩ = fallbackBiographySet :=
  generateAllBiographies_absorbs_errors _ _ _ ⟨Lang.en, noModelsMessage, rfl⟩

/-- C9: generateBiography throws exactly when neither client is
configured, and then with the fixed no-provider message; in every other
configuration it returns a string. -/
theorem generateBiography_error_iff_no_provider (env : ProviderEnv) (opts : BiographyOptions) :
    if env.gemini.isNone && env.deepseek.isNone then
      generateBiography env opts = Except.error noModelsMessage
    else ∃ r, generateBiography env opts = Except.ok r := by
  by_cases hb : (env.gemini.isNone && env.deepseek.isNone) = true
  · rw [if_pos hb]
    simp only [Bool.and_eq_true, Option.isNone_iff_eq_none] at hb
    exact generateBiography_noProvider env opts hb.1 hb.2
  · rw [if_neg (by simpa using hb)]
    have h : env.gemini.isSome ∨ env.deepseek.isSome := by
      rcases hg : env.gemini with _ | g <;> rcases hd : env.deepseek with _ | d <;>
        simp [hg, hd] at hb ⊢
    obtain ⟨r, hr, -⟩ := generateBiography_ok_shape env opts h
    exact ⟨r, hr⟩

/-- C10: the prompt, and with it the whole call, never embeds the user
display name: two option records differing only in userDisplayName give
the same prompt and the same generateBiography result. -/
theorem prompt_independent_of_display_name (env : ProviderEnv) (opts : BiographyOptions)
    (n1 n2 : Option String) :
    buildPrompt { opts with userDisplayName := n1 }
      = buildPrompt { opts with userDisplayName := n2 } ∧
    generateBiography env { opts with userDisplayName := n1 }
      = generateBiography env { opts with userDisplayName := n2 } := by
  cases opts
  exact ⟨rfl, rfl⟩

/-- Length of a string built from an explicit character list. -/
theorem length_mk (l : List Char) : (String.mk l).length = l.length := rfl

/-- C8: every string generateBiography returns is at most 600 characters:
provider text longer than 600 characters is cut to its first 597
characters plus the three-character ellipsis marker (total length exactly
600), text of length at most 600 is returned unchanged, and every static
fallback string is itself within the cap. -/
theorem biography_length_cap :
    (∀ text : String, text.length > 600 →
        truncateBiography text = String.mk (text.data.take 597) ++ "..." ∧
        (truncateBiography text).length = 600) ∧
    (∀ text : String, text.length ≤ 600 → truncateBiography text = text) ∧
    (∀ lang : Lang, (staticFallback lang).length ≤ 600) ∧
    (∀ (env : ProviderEnv) (opts : BiographyOptions) (r : String),
        generateBiography env opts = Except.ok r → r.length ≤ 600) := by
  have hdata : ∀ text : String, text.length = text.data.length := fun _ => rfl
  have hlong : ∀ text : String, text.length > 600 →
      truncateBiography text = String.mk (text.data.take 597) ++ "..." ∧
      (truncateBiography text).length = 600 := by
    intro text h
    have heq : truncateBiography text = String.mk (text.data.take 597) ++ "..." := by
      unfold truncateBiography
      rw [if_pos h]
    refine ⟨heq, ?_⟩
    rw [heq, String.length_append, length_mk, List.length_take]
    have : text.data.length > 600 := by rw [← hdata]; exact h
    have h3 : ("..." : String).length = 3 := rfl
    omega
  have hshort : ∀ text : String, text.length ≤ 600 → truncateBiography text = text := by
    intro text h
    unfold truncateBiography
    rw [if_neg (by omega)]
  have hfall : ∀ lang : Lang, (staticFallback lang).length ≤ 600 := by
    intro lang
    cases lang <;> decide
  refine ⟨hlong, hshort, hfall, ?_⟩
  intro env opts r h
  have hsome : env.gemini.isSome ∨ env.deepseek.isSome := by
    by_contra hc
    push_neg at hc
    obtain ⟨h1, h2⟩ := hc
    simp only [Option.not_isSome_iff_eq_none] at h1 h2
    rw [generateBiography_noProvider env opts h1 h2] at h
    cases h
  obtain ⟨r2, hr2, hshape⟩ := generateBiography_ok_shape env opts hsome
  rw [h] at hr2
  cases hr2
  rcases hshape with ⟨t, ht⟩ | ht
  · rw [ht]
    by_cases hl : t.length > 600
    · rw [(hlong t hl).2]
    · have := hshort t (by omega)
      rw [this]
      omega
  · rw [ht]
    exact hfall opts.language

/-- C8 witness: the cap at concrete inputs, by the theorem itself. -/
theorem biography_length_cap_witness :
    truncateBiography "short text" = "short text" ∧ (staticFallback Lang.en).length ≤ 600 :=
  ⟨biography_length_cap.2.1 "short text" (by decide), biography_length_cap.2.2.1 Lang.en⟩

/-- Full evaluation of the classifier at the C1 scenario: one track of
popularity 80 and the genres ambient and chill. -/
theorem mood_scenario_eval :
    generateMoodFromMusic [⟨"A", "X", some 80⟩] ["ambient", "chill"] =
      { primary := "Energetic", secondary := "Relaxed",
        description := "Our analysis suggests you enjoy high-energy tracks with dynamic beats.",
        recommendation := some
          "Try listening to 'Blinding Lights' by The Weeknd or 'Don't Stop Me Now' by Queen." } := by
  have havg : averagePopularity [⟨"A", "X", some 80⟩] = 80 := by
    norm_num [averagePopularity, trackPopularity]
  have hcounts : moodCountsFor [⟨"A", "X", some 80⟩] ["ambient", "chill"] =
      [("energetic", 2), ("happy", 1), ("intense", 0), ("relaxed", 2), ("melancholic", 0),
       ("thoughtful", 0), ("romantic", 0), ("nostalgic", 0), ("adventurous", 0)] := by
    unfold moodCountsFor
    rw [havg]
    unfold applyPopularityBias
    rw [if_pos (by norm_num : (80:ℚ) > 75)]
    decide
  simp only [generateMoodFromMusic, List.length_cons, List.length_nil]
  rw [if_neg (by omega : ¬ (0 + 1 = 0)), havg, hcounts]
  decide

/-- C1 counterexample: at tracks with one popularity-80 track and genres
ambient and chill the classifier's primary mood is not Relaxed, refuting
the claimed precedence of the genre signal over the popularity bias. -/
theorem mood_scenario_ambient_chill_not_relaxed :
    (generateMoodFromMusic [⟨"A", "X", some 80⟩] ["ambient", "chill"]).primary ≠ "Relaxed" := by
  rw [mood_scenario_eval]
  decide

/-- C1 (amended): for tracks with the single track of popularity 80 and
genres ambient and chill, the two genre keyword matches give relaxed a
count of 2, but the above-75 popularity bias lifts energetic to the same
count 2, and energetic wins the tie because it comes first in the fixed
table order: the classifier returns primary Energetic with Relaxed in
the secondary slot. -/
theorem mood_scenario_ambient_chill_energetic_primary :
    (generateMoodFromMusic [⟨"A", "X", some 80⟩] ["ambient", "chill"]).primary = "Energetic" ∧
    (generateMoodFromMusic [⟨"A", "X", some 80⟩] ["ambient", "chill"]).secondary = "Relaxed" := by
  rw [mood_scenario_eval]
  exact ⟨rfl, rfl⟩

/-- C6: the popularity bias is additive onto the genre keyword counts
pointwise, changing no other entry and no name, and on a non-empty track
list with every popularity at least 90 and no genre signal the
classifier returns primary Energetic and secondary Happy. -/
theorem popularity_bias_additive (tracks : List Track) (genres : List String)
    (h1 : tracks ≠ [])
    (h2 : ∀ t ∈ tracks, ∃ p, t.popularity = some p ∧ 90 ≤ p)
    (h3 : genreMoodCounts genres = zeroGenreCounts) :
    (∀ (counts : List (String × Nat)) (avg : ℚ),
        applyPopularityBias counts avg
          = counts.map (fun e => (e.1, e.2 + biasAmount avg e.1))) ∧
    (generateMoodFromMusic tracks genres).primary = "Energetic" ∧
    (generateMoodFromMusic tracks genres).secondary = "Happy" := by
  have hbias : ∀ (counts : List (String × Nat)) (avg : ℚ),
      applyPopularityBias counts avg
        = counts.map (fun e => (e.1, e.2 + biasAmount avg e.1)) := by
    intro counts avg
    unfold applyPopularityBias
    by_cases h75 : avg > 75
    · have h50 : ¬ avg < 50 := by linarith
      rw [if_pos h75]
      have hfun : (fun e : String × Nat =>
            if e.1 = "energetic" then (e.1, e.2 + 2)
            else if e.1 = "happy" then (e.1, e.2 + 1)
            else e)
          = (fun e : String × Nat => (e.1, e.2 + biasAmount avg e.1)) := by
        funext e
        simp only [biasAmount, h75, h50, true_and, false_and, if_false]
        split_ifs <;> simp
      rw [hfun]
    · rw [if_neg h75]
      by_cases h50 : avg < 50
      · rw [if_pos h50]
        have hfun : (fun e : String × Nat =>
              if e.1 = "thoughtful" then (e.1, e.2 + 1)
              else if e.1 = "melancholic" then (e.1, e.2 + 1)
              else e)
            = (fun e : String × Nat => (e.1, e.2 + biasAmount avg e.1)) := by
          funext e
          simp only [biasAmount, h75, h50, true_and, false_and, if_false]
          split_ifs <;> simp_all
        rw [hfun]
      · rw [if_neg h50]
        have hfun : (fun e : String × Nat => (e.1, e.2 + biasAmount avg e.1))
            = (fun e : String × Nat => e) := by
          funext e
          simp [biasAmount, h75, h50]
        rw [hfun, List.map_id']
  have hlen : tracks.length ≠ 0 := by
    intro hc
    exact h1 (List.length_eq_zero.mp hc)
  have hpop : ∀ t ∈ tracks, 90 ≤ trackPopularity t := by
    intro t ht
    obtain ⟨p, hp, hp90⟩ := h2 t ht
    have hval : trackPopularity t = if p = 0 then 50 else p := by
      unfold trackPopularity
      rw [hp]
    rw [hval]
    split <;> omega
  have hsum : tracks.length * 90 ≤ (tracks.map trackPopularity).sum := by
    have := List.card_nsmul_le_sum (l := tracks.map trackPopularity) (n := 90) (by
      intro x hx
      obtain ⟨t, ht, rfl⟩ := List.mem_map.mp hx
      exact hpop t ht)
    simpa [smul_eq_mul] using this
  have havg : averagePopularity tracks > 75 := by
    unfold averagePopularity
    have hn : (0:ℚ) < (tracks.length : ℚ) := by
      exact_mod_cast Nat.pos_of_ne_zero hlen
    rw [gt_iff_lt, lt_div_iff₀ hn]
    have hq : (tracks.length : ℚ) * 90 ≤ ((tracks.map trackPopularity).sum : ℚ) := by
      exact_mod_cast hsum
    nlinarith [hn, hq]
  have hcounts : moodCountsFor tracks genres =
      [("energetic", 2), ("happy", 1), ("intense", 0), ("relaxed", 0), ("melancholic", 0),
       ("thoughtful", 0), ("romantic", 0), ("nostalgic", 0), ("adventurous", 0)] := by
    unfold moodCountsFor
    rw [h3]
    unfold applyPopularityBias
    rw [if_pos havg]
    decide
  have hsel : selectMoods (moodCountsFor tracks genres)
      = ⟨"energetic", "happy", 2, 1⟩ := by
    rw [hcounts]
    decide
  refine ⟨hbias, ?_, ?_⟩
  · rw [generateMoodFromMusic_ne tracks genres hlen, hsel]
    show capitalize (choosePrimary ⟨"energetic", "happy", 2, 1⟩ (averagePopularity tracks))
      = "Energetic"
    unfold choosePrimary
    rw [if_neg (by decide)]
    decide
  · rw [generateMoodFromMusic_ne tracks genres hlen, hsel]
    show capitalize (chooseSecondary ⟨"energetic", "happy", 2, 1⟩ (averagePopularity tracks))
      = "Happy"
    unfold chooseSecondary
    rw [if_neg (by decide)]
    decide

/-- C6 witness at one track of popularity 90 and no genres. -/
theorem popularity_bias_additive_witness :
    (generateMoodFromMusic [⟨"A", "X", some 90⟩] []).primary = "Energetic" ∧
    (generateMoodFromMusic [⟨"A", "X", some 90⟩] []).secondary = "Happy" :=
  (popularity_bias_additive [⟨"A", "X", some 90⟩] [] (by simp)
    (fun t ht => by
      rw [List.mem_singleton] at ht
      subst ht
      exact ⟨90, rfl, by omega⟩)
    (by decide)).2

/-- C7: for every non-empty track list whose biased counts peak at
exactly zero, the override block fixes primary and secondary from the
popularity thresholds alone: above 70 Energetic and Happy, otherwise
above 50 Nostalgic and Adventurous, otherwise Thoughtful and
Melancholic. -/
theorem zero_signal_override (tracks : List Track) (genres : List String)
    (h1 : tracks ≠ [])
    (h0 : (selectMoods (moodCountsFor tracks genres)).highestCount = 0) :
    (averagePopularity tracks > 70 →
      (generateMoodFromMusic tracks genres).primary = "Energetic" ∧
      (generateMoodFromMusic tracks genres).secondary = "Happy") ∧
    (¬ averagePopularity tracks > 70 → averagePopularity tracks > 50 →
      (generateMoodFromMusic tracks genres).primary = "Nostalgic" ∧
      (generateMoodFromMusic tracks genres).secondary = "Adventurous") ∧
    (¬ averagePopularity tracks > 70 → ¬ averagePopularity tracks > 50 →
      (generateMoodFromMusic tracks genres).primary = "Thoughtful" ∧
      (generateMoodFromMusic tracks genres).secondary = "Melancholic") := by
  have hlen : tracks.length ≠ 0 := fun hc => h1 (List.length_eq_zero.mp hc)
  refine ⟨fun h70 => ⟨?_, ?_⟩, fun h70 h50 => ⟨?_, ?_⟩, fun h70 h50 => ⟨?_, ?_⟩⟩ <;>
    rw [generateMoodFromMusic_ne tracks genres hlen]
  · show capitalize (choosePrimary (selectMoods (moodCountsFor tracks genres))
        (averagePopularity tracks)) = "Energetic"
    unfold choosePrimary
    rw [if_pos h0, if_pos h70]
    decide
  · show capitalize (chooseSecondary (selectMoods (moodCountsFor tracks genres))
        (averagePopularity tracks)) = "Happy"
    unfold chooseSecondary
    rw [if_pos h0, if_pos h70]
    decide
  · show capitalize (choosePrimary (selectMoods (moodCountsFor tracks genres))
        (averagePopularity tracks)) = "Nostalgic"
    unfold choosePrimary
    rw [if_pos h0, if_neg h70, if_pos h50]
    decide
  · show capitalize (chooseSecondary (selectMoods (moodCountsFor tracks genres))
        (averagePopularity tracks)) = "Adventurous"
    unfold chooseSecondary
    rw [if_pos h0, if_neg h70, if_pos h50]
    decide
  · show capitalize (choosePrimary (selectMoods (moodCountsFor tracks genres))
        (averagePopularity tracks)) = "Thoughtful"
    unfold choosePrimary
    rw [if_pos h0, if_neg h70, if_neg h50]
    decide
  · show capitalize (chooseSecondary (selectMoods (moodCountsFor tracks genres))
        (averagePopularity tracks)) = "Melancholic"
    unfold chooseSecondary
    rw [if_pos h0, if_neg h70, if_neg h50]
    decide

/-- C7 witness at one track of popularity 60 and no genres: average 60
falls in the middle band, giving Nostalgic and Adventurous. -/
theorem zero_signal_override_witness :
    (generateMoodFromMusic [⟨"A", "X", some 60⟩] []).primary = "Nostalgic" ∧
    (generateMoodFromMusic [⟨"A", "X", some 60⟩] []).secondary = "Adventurous" := by
  have havg : averagePopularity [⟨"A", "X", some 60⟩] = 60 := by
    norm_num [averagePopularity, trackPopularity]
  have h0 : (selectMoods (moodCountsFor [⟨"A", "X", some 60⟩] [])).highestCount = 0 := by
    unfold moodCountsFor
    rw [havg]
    unfold applyPopularityBias
    rw [if_neg (by norm_num), if_neg (by norm_num)]
    decide
  have h := zero_signal_override [⟨"A", "X", some 60⟩] [] (by simp) h0
  exact h.2.1 (by rw [havg]; norm_num) (by rw [havg]; norm_num)

/-- The loop state after the first two entries already satisfies the
selection specification on the two-entry list. -/
theorem selSpec_two (e1 e2 : String × Nat) :
    SelSpec [e1, e2] (selStep (selStep selInit e1) e2) := by
  have hgt : (e1.2 : Int) > -1 := by omega
  have h1 : selStep selInit e1 = ⟨e1.1, "nostalgic", (e1.2 : Int), -1⟩ := by
    simp [selStep, selInit, hgt]
  rw [h1]
  by_cases h : (e2.2 : Int) > (e1.2 : Int)
  · have h2 : selStep ⟨e1.1, "nostalgic", (e1.2 : Int), -1⟩ e2
        = ⟨e2.1, e1.1, (e2.2 : Int), (e1.2 : Int)⟩ := by
      simp [selStep, h]
    rw [h2]
    refine ⟨1, 0, by simp, by simp, by omega, rfl, rfl, rfl, rfl, ?_, ?_, ?_, ?_⟩
    · intro k hk
      have hk2 : k < 2 := hk
      interval_cases k
      · simp [List.getD_cons_zero, List.getD_cons_succ]
        omega
      · simp [List.getD_cons_zero, List.getD_cons_succ]
    · intro k hk
      interval_cases k
      simp [List.getD_cons_zero, List.getD_cons_succ]
      omega
    · intro k hk hne
      have hk2 : k < 2 := hk
      interval_cases k
      · simp [List.getD_cons_zero, List.getD_cons_succ]
      · exact absurd rfl hne
    · intro k hk hne
      exact absurd hk (Nat.not_lt_zero k)
  · have h2 : selStep ⟨e1.1, "nostalgic", (e1.2 : Int), -1⟩ e2
        = ⟨e1.1, e2.1, (e1.2 : Int), (e2.2 : Int)⟩ := by
      simp [selStep, h, show (e2.2 : Int) > -1 from by omega]
    rw [h2]
    refine ⟨0, 1, by simp, by simp, by omega, rfl, rfl, rfl, rfl, ?_, ?_, ?_, ?_⟩
    · intro k hk
      have hk2 : k < 2 := hk
      interval_cases k
      · simp [List.getD_cons_zero, List.getD_cons_succ]
      · simp [List.getD_cons_zero, List.getD_cons_succ]
        omega
    · intro k hk
      exact absurd hk (Nat.not_lt_zero k)
    · intro k hk hne
      have hk2 : k < 2 := hk
      interval_cases k
      · exact absurd rfl hne
      · simp [List.getD_cons_zero, List.getD_cons_succ]
    · intro k hk hne
      exact absurd (by omega : k = 0) hne

/-- One loop iteration preserves the selection specification, the new
entry appended to the processed list. -/
theorem selSpec_step (l : List (String × Nat)) (s : SelState) (e : String × Nat)
    (h : SelSpec l s) : SelSpec (l ++ [e]) (selStep s e) := by
  obtain ⟨i, j, hi, hj, hji, hpn, hpc, hsn, hsc, hmax, hfm, hsec, hfs⟩ := h
  have hlen : (l ++ [e]).length = l.length + 1 := by simp
  have hga : ∀ k, k < l.length → (l ++ [e]).getD k ("", 0) = l.getD k ("", 0) :=
    fun k hk => List.getD_append _ _ _ _ hk
  have hgL : (l ++ [e]).getD l.length ("", 0) = e := by
    rw [List.getD_append_right _ _ _ _ (le_refl _), Nat.sub_self]
    rfl
  unfold selStep
  by_cases hb1 : (e.2 : Int) > s.highestCount
  · rw [if_pos hb1]
    refine ⟨l.length, i, by omega, by omega, by omega, ?_, ?_, ?_, ?_, ?_, ?_, ?_, ?_⟩
    · rw [hgL]
    · rw [hgL]
    · rw [hga i hi]; exact hpn
    · rw [hga i hi]; exact hpc
    · intro k hk
      rw [hgL]
      rcases (by omega : k < l.length ∨ k = l.length) with hk2 | hk2
      · rw [hga k hk2]
        have h1 := hmax k hk2
        have h2 : ((l.getD i ("", 0)).2 : Int) < (e.2 : Int) := by rw [hpc]; exact hb1
        omega
      · subst hk2
        rw [hgL]
    · intro k hk
      rw [hgL, hga k (by omega)]
      have h1 := hmax k (by omega)
      have h2 : ((l.getD i ("", 0)).2 : Int) < (e.2 : Int) := by rw [hpc]; exact hb1
      omega
    · intro k hk hne
      have hk2 : k < l.length := by omega
      rw [hga k hk2, hga i hi]
      exact hmax k hk2
    · intro k hk hne
      rw [hga k (by omega), hga i hi]
      exact hfm k hk
  · rw [if_neg hb1]
    by_cases hb2 : (e.2 : Int) > s.secondHighestCount
    · rw [if_pos hb2]
      refine ⟨i, l.length, by omega, by omega, by omega, ?_, ?_, ?_, ?_, ?_, ?_, ?_, ?_⟩
      · rw [hga i hi]; exact hpn
      · rw [hga i hi]; exact hpc
      · rw [hgL]
      · rw [hgL]
      · intro k hk
        rw [hga i hi]
        rcases (by omega : k < l.length ∨ k = l.length) with hk2 | hk2
        · rw [hga k hk2]; exact hmax k hk2
        · subst hk2
          rw [hgL]
          have h1 : (e.2 : Int) ≤ s.highestCount := by omega
          rw [← hpc] at h1
          omega
      · intro k hk
        rw [hga i hi, hga k (by omega)]
        exact hfm k hk
      · intro k hk hne
        rw [hgL]
        rcases (by omega : k < l.length ∨ k = l.length) with hk2 | hk2
        · rw [hga k hk2]
          have h1 := hsec k hk2 hne
          have h2 : ((l.getD j ("", 0)).2 : Int) < (e.2 : Int) := by rw [hsc]; exact hb2
          omega
        · subst hk2
          rw [hgL]
      · intro k hk hne
        have hk2 : k < l.length := by omega
        rw [hgL, hga k hk2]
        have h1 := hsec k hk2 hne
        have h2 : ((l.getD j ("", 0)).2 : Int) < (e.2 : Int) := by rw [hsc]; exact hb2
        omega
    · rw [if_neg hb2]
      refine ⟨i, j, by omega, by omega, hji, ?_, ?_, ?_, ?_, ?_, ?_, ?_, ?_⟩
      · rw [hga i hi]; exact hpn
      · rw [hga i hi]; exact hpc
      · rw [hga j hj]; exact hsn
      · rw [hga j hj]; exact hsc
      · intro k hk
        rw [hga i hi]
        rcases (by omega : k < l.length ∨ k = l.length) with hk2 | hk2
        · rw [hga k hk2]; exact hmax k hk2
        · subst hk2
          rw [hgL]
          have h1 : (e.2 : Int) ≤ s.secondHighestCount := by omega
          have h4 := hmax j hj
          have h5 := hsc
          omega
      · intro k hk
        rw [hga i hi, hga k (by omega)]
        exact hfm k hk
      · intro k hk hne
        rw [hga j hj]
        rcases (by omega : k < l.length ∨ k = l.length) with hk2 | hk2
        · rw [hga k hk2]; exact hsec k hk2 hne
        · subst hk2
          rw [hgL]
          have h1 : (e.2 : Int) ≤ s.secondHighestCount := by omega
          omega
      · intro k hk hne
        have hk2 : k < l.length := by omega
        rw [hga j hj, hga k hk2]
        exact hfs k hk hne

/-- Folding the loop over further entries preserves the selection
specification. -/
theorem selSpec_fold (rest : List (String × Nat)) :
    ∀ (l : List (String × Nat)) (s : SelState), SelSpec l s →
      SelSpec (l ++ rest) (rest.foldl selStep s) := by
  induction rest with
  | nil =>
    intro l s h
    simpa using h
  | cons e rest ih =>
    intro l s h
    have h2 := ih (l ++ [e]) (selStep s e) (selSpec_step l s e h)
    simpa [List.append_assoc] using h2

/-- The popularity bias never renames or reorders the mood entries. -/
theorem applyPopularityBias_fst (counts : List (String × Nat)) (avg : ℚ) :
    (applyPopularityBias counts avg).map Prod.fst = counts.map Prod.fst := by
  unfold applyPopularityBias
  split_ifs
  · rw [List.map_map]
    apply List.map_congr_left
    intro e he
    simp only [Function.comp_apply]
    split_ifs <;> rfl
  · rw [List.map_map]
    apply List.map_congr_left
    intro e he
    simp only [Function.comp_apply]
    split_ifs <;> rfl
  · rfl

/-- C5: mood selection is deterministic with the fixed tie-break: over
the biased counts, whose names are exactly the nine moods in table
order, the loop puts into the primary slot the first entry attaining the
highest count and into the secondary slot the first entry attaining the
second-highest count, ties falling to the entry earlier in table order;
and the classifier is a pure function, so identical inputs always give
identical results. -/
theorem selection_first_argmax_tiebreak (tracks : List Track) (genres : List String) :
    (moodCountsFor tracks genres).map Prod.fst
      = ["energetic", "happy", "intense", "relaxed", "melancholic", "thoughtful",
         "romantic", "nostalgic", "adventurous"] ∧
    SelSpec (moodCountsFor tracks genres) (selectMoods (moodCountsFor tracks genres)) ∧
    generateMoodFromMusic tracks genres = generateMoodFromMusic tracks genres := by
  have hfst : (moodCountsFor tracks genres).map Prod.fst
      = ["energetic", "happy", "intense", "relaxed", "melancholic", "thoughtful",
         "romantic", "nostalgic", "adventurous"] := by
    unfold moodCountsFor
    rw [applyPopularityBias_fst]
    unfold genreMoodCounts
    rw [List.map_map]
    simp [Function.comp, genreCheckList]
  refine ⟨hfst, ?_, rfl⟩
  have hlen9 : (moodCountsFor tracks genres).length = 9 := by
    have h := congrArg List.length hfst
    simpa using h
  obtain ⟨e1, e2, rest, hml⟩ :
      ∃ e1 e2 rest, moodCountsFor tracks genres = e1 :: e2 :: rest := by
    rcases hl : moodCountsFor tracks genres with _ | ⟨e1, _ | ⟨e2, rest⟩⟩
    · rw [hl] at hlen9; simp at hlen9
    · rw [hl] at hlen9; simp at hlen9
    · exact ⟨e1, e2, rest, rfl⟩
  rw [hml]
  have hsel : selectMoods (e1 :: e2 :: rest)
      = rest.foldl selStep (selStep (selStep selInit e1) e2) := rfl
  rw [hsel]
  have h2 := selSpec_fold rest [e1, e2] (selStep (selStep selInit e1) e2) (selSpec_two e1 e2)
  simpa using h2
